import Mathlib

/-!
Shallow embedding of `src/discord_status.py` (DCTect).

External effects — the pypresence RPC calls, the wall clock, the file
system and the process exit code — are modelled as explicit inputs
(oracle booleans for whether an external call raises, a trace of loop
iterations for the run loop) and as a recorded list of external calls.
Python truthiness (`x or y`, `if x:`, `if not x:`) is modelled by
`JValue.truthy` / `otruthy` / `pyOr` below.
-/

/-- A JSON-ish value as stored in the configuration dictionary
(`discord_config.json`). -/
inductive JValue where
  | str : String → JValue
  | num : Int → JValue
  | bool : Bool → JValue
  | null : JValue
deriving DecidableEq, Repr

/-- Python truthiness of a value (`if x:` / `x or y`): the empty string,
zero, `False` and `None` are falsy. -/
def JValue.truthy : JValue → Bool
  | JValue.str s => s != ""
  | JValue.num n => n != 0
  | JValue.bool b => b
  | JValue.null => false

/-- Truthiness of an optional value: a missing value (Python `None`) is
falsy. -/
def otruthy : Option JValue → Bool
  | none => false
  | some v => v.truthy

/-- Python `x or y`. -/
def pyOr (x y : Option JValue) : Option JValue :=
  if otruthy x then x else y

/-- A configuration dictionary: an association list of keys to values
(keys unique, first binding wins, as in a parsed JSON object). -/
abbrev Config := List (String × JValue)

/-- Python `dict.get(key)`: the bound value, or `none` when the key is
absent. -/
def Config.get (c : Config) (k : String) : Option JValue :=
  List.lookup k c

/-- The default configuration dictionary built at
`discord_status.py:42-51` when the file is missing or unreadable. -/
def default_config : Config :=
  [("state", JValue.str ("Playing a game")),
   ("details", JValue.str ("Enjoying Discord")),
   ("large_image", JValue.str ("discord")),
   ("large_text", JValue.str ("Discord Rich Presence")),
   ("small_image", JValue.null),
   ("small_text", JValue.null),
   ("update_interval", JValue.num 15),
   ("auto_start", JValue.bool true)]

/-- What reading the configuration file can yield: the file is missing,
it is unreadable or malformed (`open`/`json.load` raised), or it parses
to a dictionary. -/
inductive FileRead where
  | missing : FileRead
  | malformed : FileRead
  | ok : Config → FileRead
deriving DecidableEq, Repr

/-- `DiscordStatusManager.load_config` (`discord_status.py:32-51`):
returns the parsed file when it exists and parses; otherwise — missing
file, or any exception while opening or parsing — the default
dictionary. Every exception is caught, so the function is total. -/
def load_config : FileRead → Config
  | FileRead.ok c => c
  | FileRead.missing => default_config
  | FileRead.malformed => default_config

/-- The mutable attributes of a `DiscordStatusManager`: `rpc` records
whether `self.rpc` holds a handle (is not `None`). -/
structure Manager where
  client_id : String
  config : Config
  rpc : Bool
  is_connected : Bool
deriving DecidableEq, Repr

/-- The explicit keyword arguments of `update_status`
(`discord_status.py:90-101`); each one defaults to `None`. -/
structure Args where
  state : Option String
  details : Option String
  large_image : Option String
  large_text : Option String
  small_image : Option String
  small_text : Option String
  party_id : Option String
  party_size : Option (Int × Int)
  buttons : Option (List (String × String))
deriving DecidableEq, Repr

/-- The call with no explicit arguments (`self.update_status()`). -/
def noArgs : Args :=
  ⟨none, none, none, none, none, none, none, none, none⟩

/-- An explicit string argument as a value (`None` stays `None`). -/
def argVal (a : Option String) : Option JValue :=
  Option.map JValue.str a

/-- The `update_data` dictionary sent to `rpc.update`
(`discord_status.py:125-147`). A field set to `none` models the key
being absent from the dictionary; the four required keys are always
present, though possibly bound to `None` when both the argument and the
config value are falsy. `start` is the wall-clock `time.time()` value,
abstracted to a natural number. -/
structure UpdateData where
  state : Option JValue
  details : Option JValue
  large_image : Option JValue
  large_text : Option JValue
  start : Nat
  small_image : Option JValue
  small_text : Option JValue
  party_id : Option String
  party_size : Option (Int × Int)
  buttons : Option (List (String × String))
deriving DecidableEq, Repr

/-- Building `update_data` from the config and the explicit arguments
(`discord_status.py:125-147`): each required field is
`arg or self.config.get(key)` under Python truthiness; the optional keys
are added under the source's `if` conditions (a two-element tuple is
always truthy, an empty list or empty string is falsy). `now` is the
value of `time.time()`. -/
def update_data (cfg : Config) (a : Args) (now : Nat) : UpdateData where
  state := pyOr (argVal a.state) (Config.get cfg ("state"))
  details := pyOr (argVal a.details) (Config.get cfg ("details"))
  large_image := pyOr (argVal a.large_image) (Config.get cfg ("large_image"))
  large_text := pyOr (argVal a.large_text) (Config.get cfg ("large_text"))
  start := now
  small_image :=
    if otruthy (argVal a.small_image) || otruthy (Config.get cfg ("small_image")) then
      pyOr (argVal a.small_image) (Config.get cfg ("small_image"))
    else none
  small_text :=
    if otruthy (argVal a.small_text) || otruthy (Config.get cfg ("small_text")) then
      pyOr (argVal a.small_text) (Config.get cfg ("small_text"))
    else none
  party_id := if otruthy (argVal a.party_id) then a.party_id else none
  party_size := a.party_size
  buttons :=
    match a.buttons with
    | some l => if l.isEmpty then none else some l
    | none => none

/-- An external pypresence call made by the manager. -/
inductive Call where
  | rpcUpdate : UpdateData → Call
  | rpcClose : Call
deriving DecidableEq, Repr

/-- Result of one `update_status` call: the returned boolean, the
manager attributes after the call, and the external calls made. -/
structure UpdateResult where
  ok : Bool
  manager : Manager
  calls : List Call
deriving DecidableEq, Repr

/-- `DiscordStatusManager.update_status` (`discord_status.py:90-155`).
`sendFails` is the environment's choice of whether `rpc.update` raises;
such a raise is caught (`except Exception`) and turned into a `False`
return. When `not self.is_connected or not self.rpc`, the method
returns `False` before touching anything. -/
def update_status (m : Manager) (a : Args) (now : Nat) (sendFails : Bool) :
    UpdateResult :=
  if !m.is_connected || !m.rpc then
    UpdateResult.mk false m []
  else
    let d := update_data m.config a now
    if sendFails then UpdateResult.mk false m [Call.rpcUpdate d]
    else UpdateResult.mk true m [Call.rpcUpdate d]

/-- Result of one `disconnect` call: the manager attributes after the
call and the external calls made. -/
structure DisconnectResult where
  manager : Manager
  calls : List Call
deriving DecidableEq, Repr

/-- `DiscordStatusManager.disconnect` (`discord_status.py:80-88`).
`closeFails` is whether `rpc.close()` raises; the raise is caught and
only logged — but the assignment `self.is_connected = False` sits after
the `close()` call inside the `try`, so it is skipped when the close
raises. -/
def disconnect (m : Manager) (closeFails : Bool) : DisconnectResult :=
  if m.rpc && m.is_connected then
    if closeFails then DisconnectResult.mk m [Call.rpcClose]
    else DisconnectResult.mk { m with is_connected := false } [Call.rpcClose]
  else DisconnectResult.mk m []

/-- `DiscordStatusManager.connect` (`discord_status.py:62-78`). `ok` is
whether `rpc.connect()` succeeds; on failure the exception is caught,
`is_connected` is set to `False` and `False` is returned. `self.rpc` is
assigned before the connect attempt, so it is set either way. -/
def connect (m : Manager) (ok : Bool) : Bool × Manager :=
  if ok then (true, { m with rpc := true, is_connected := true })
  else (false, { m with rpc := true, is_connected := false })

/-- What the environment does at one iteration of the `while True` loop
in `run_continuous`: `elapsed` is `time.time() - start_time` (whole
seconds) at the duration check; the iteration then either completes
normally (sleep, then one `update_status`), or a `KeyboardInterrupt`
arrives during the sleep, or one arrives during the update call (whose
`except Exception` does not catch it). -/
inductive TickKind where
  | normal : TickKind
  | sleepInterrupt : TickKind
  | updateInterrupt : TickKind
deriving DecidableEq, Repr

/-- One loop iteration as seen from the environment. -/
structure Tick where
  elapsed : Nat
  kind : TickKind
deriving DecidableEq, Repr

/-- The loop guard `if duration and (time.time() - start_time) > duration`
(`discord_status.py:181`): Python truthiness makes `duration = 0` falsy,
so a zero duration never triggers the break. -/
def breakCond (duration : Option Nat) (elapsed : Nat) : Bool :=
  match duration with
  | none => false
  | some d => (d != 0) && decide (elapsed > d)

/-- How a `run_continuous` call ended: the initial connect failed; the
loop broke on the duration check; a `KeyboardInterrupt` was caught; or
the supplied trace of iterations ran out with the loop still running (a
model artifact standing for "still looping"). -/
inductive ExitKind where
  | connectFailed : ExitKind
  | durationElapsed : ExitKind
  | interrupted : ExitKind
  | running : ExitKind
deriving DecidableEq, Repr

/-- The `while True` loop (`discord_status.py:180-185`): given the trace
of iterations, the number of `update_status` calls made inside the loop
and how the loop ended. An interrupt that escapes the update call still
counts that update as invoked. -/
def loop (duration : Option Nat) : List Tick → Nat × ExitKind
  | [] => (0, ExitKind.running)
  | t :: ts =>
    if breakCond duration t.elapsed then (0, ExitKind.durationElapsed)
    else
      match t.kind with
      | TickKind.sleepInterrupt => (0, ExitKind.interrupted)
      | TickKind.updateInterrupt => (1, ExitKind.interrupted)
      | TickKind.normal =>
        let r := loop duration ts
        (r.1 + 1, r.2)

/-- Observable outcome of one `run_continuous` call: whether the initial
connect succeeded, how many times `update_status` was invoked, how many
times `disconnect` was invoked, and how the run ended. -/
structure RunResult where
  connected : Bool
  updateCalls : Nat
  disconnectCalls : Nat
  exit : ExitKind
deriving DecidableEq, Repr

/-- `DiscordStatusManager.run_continuous` (`discord_status.py:157-192`):
on a failed connect it returns at once — the `try`/`finally` is never
entered, so no update and no disconnect happen. On a successful connect
it performs one immediate `update_status`, runs the loop, and the
`finally` block calls `disconnect` exactly once whenever the loop
actually exits; when the supplied trace ends with the loop still
running, `disconnect` has not yet been called. The sleep length
(`update_interval`) is absorbed into each tick's `elapsed`. -/
def run_continuous (duration : Option Nat) (connectOk : Bool)
    (ticks : List Tick) : RunResult :=
  if !connectOk then RunResult.mk false 0 0 ExitKind.connectFailed
  else
    let r := loop duration ticks
    RunResult.mk true (r.1 + 1)
      (if r.2 = ExitKind.running then 0 else 1) r.2

/-- Client-ID resolution in `main` (`discord_status.py:198-208`): the
environment variable when truthy; otherwise, when the config file exists
and parses, `cfg.get("client_id")`; when it exists but fails to parse,
`None`; when it does not exist, the (falsy) environment value is kept.
The final `if not CLIENT_ID:` check in `main` is again by truthiness. -/
def resolveClientId (env : Option String) (file : FileRead) : Option JValue :=
  let e := argVal env
  if otruthy e then e
  else
    match file with
    | FileRead.ok c => Config.get c ("client_id")
    | FileRead.malformed => none
    | FileRead.missing => e

/-- The process exit code of `main` (`discord_status.py:195-241`):
`sys.exit(1)` when no truthy client ID was resolved; in every other case
`main` falls off the end and the process exits 0 — also when
`manager.connect()` at line 227 returns `False`, since the
`if manager.connect():` block is then simply skipped. `connect2` and
`ticks` drive the nested `run_continuous` call, which catches
`KeyboardInterrupt`, so a graceful stop also exits 0. The config-save
and update side effects on the success path do not affect the code. -/
def mainExit (env : Option String) (file : FileRead)
    (connect1 connect2 : Bool) (ticks : List Tick) : Nat :=
  if !otruthy (resolveClientId env file) then 1
  else if connect1 then
    let _r := run_continuous none connect2 ticks
    0
  else 0

/-- Field-merge contract for one required presence field: a non-empty
explicit argument wins; a falsy argument (absent or empty) falls back to
the config value; and the merged value is truthy whenever the config
value is. -/
def mergeOk (arg : Option String) (cfgv dv : Option JValue) : Prop :=
  (∀ s : String, arg = some s → s ≠ "" → dv = some (JValue.str s)) ∧
  (otruthy (argVal arg) = false → dv = cfgv) ∧
  (otruthy cfgv = true → otruthy dv = true)

/-- Modelled from the spec's words (not from the source): the default
record as §4.1 of the specification describes it — exactly the four
documented strings and `update_interval = 15`, with `small_image` and
`small_text` absent and no other fields. Compared against
`default_config`, the record the source actually builds. -/
def documented_default : Config :=
  [("state", JValue.str ("Playing a game")),
   ("details", JValue.str ("Enjoying Discord")),
   ("large_image", JValue.str ("discord")),
   ("large_text", JValue.str ("Discord Rich Presence")),
   ("update_interval", JValue.num 15)]

/-- One truthiness-merged field satisfies the merge contract. -/
theorem pyOr_mergeOk (arg : Option String) (cfgv : Option JValue) :
    mergeOk arg cfgv (pyOr (argVal arg) cfgv) := by
  refine ⟨?_, ?_, ?_⟩
  · intro s hs hne
    subst hs
    simp [pyOr, argVal, otruthy, JValue.truthy, hne]
  · intro h
    simp [pyOr, h]
  · intro h
    cases ha : otruthy (argVal arg) <;> simp [pyOr, ha, h]

/-- With duration zero the break guard is never true, so an undisturbed
trace of `n` iterations performs `n` in-loop updates and keeps looping. -/
theorem loop_duration_zero (n : Nat) :
    loop (some 0) (List.replicate n (Tick.mk 5 TickKind.normal)) =
      (n, ExitKind.running) := by
  induction n with
  | zero => rfl
  | succ k ih => simp [List.replicate, loop, breakCond, ih]

/-- Claim C1 (code bug): with `duration = 0` supplied after a successful
connect, the break guard `if duration and ...` treats 0 as falsy, so the
duration check never fires — after `n` undisturbed iterations the run
has made `n + 1` update calls and is still looping, with no disconnect
yet. The specification requires exactly one update call, an unexecuted
loop body, and one disconnect. -/
theorem run_continuous_duration_zero_loops (n : Nat) :
    run_continuous (some 0) true (List.replicate n (Tick.mk 5 TickKind.normal)) =
      RunResult.mk true (n + 1) 0 ExitKind.running := by
  simp [run_continuous, loop_duration_zero]

/-- Claim C2 as stated is false: an explicitly supplied empty-string
`state` is discarded by the truthiness merge (`"" or cfg` is the config
value), so the explicit argument does not take precedence. -/
theorem update_data_empty_string_overridden :
    (update_data default_config { noArgs with state := some ("") } 0).state =
        some (JValue.str ("Playing a game")) ∧
      (update_data default_config { noArgs with state := some ("") } 0).state ≠
        some (JValue.str ("")) := by
  decide

/-- Claim C2 (amended): the merge is field-by-field by Python truthiness
— a non-empty explicit argument takes precedence over the config value;
an absent or empty explicit argument falls back to the config value; and
`state`, `details`, `large_image`, `large_text` are truthy (in
particular non-empty) whenever the config supplies truthy defaults. -/
theorem update_data_merge (cfg : Config) (a : Args) (now : Nat) :
    mergeOk a.state (Config.get cfg ("state")) (update_data cfg a now).state ∧
      mergeOk a.details (Config.get cfg ("details")) (update_data cfg a now).details ∧
      mergeOk a.large_image (Config.get cfg ("large_image"))
        (update_data cfg a now).large_image ∧
      mergeOk a.large_text (Config.get cfg ("large_text"))
        (update_data cfg a now).large_text :=
  ⟨pyOr_mergeOk a.state (Config.get cfg ("state")),
   pyOr_mergeOk a.details (Config.get cfg ("details")),
   pyOr_mergeOk a.large_image (Config.get cfg ("large_image")),
   pyOr_mergeOk a.large_text (Config.get cfg ("large_text"))⟩

/-- Concrete instance of the amended merge claim: a non-empty explicit
`state` wins over the config default. -/
theorem update_data_merge_witness :
    (update_data default_config { noArgs with state := some ("Coding") } 7).state =
      some (JValue.str ("Coding")) :=
  (update_data_merge default_config { noArgs with state := some ("Coding") } 7).1.1
    ("Coding") rfl (by decide)

/-- Claim C3 as stated is false: the default record the code returns is
not the documented one — it carries an extra `auto_start` field, and it
binds `small_image` explicitly to `null` rather than leaving it absent. -/
theorem load_config_extra_field :
    load_config FileRead.missing ≠ documented_default ∧
      Config.get (load_config FileRead.missing) ("auto_start") =
        some (JValue.bool true) ∧
      Config.get documented_default ("auto_start") = none ∧
      Config.get (load_config FileRead.missing) ("small_image") =
        some JValue.null := by
  decide

/-- Claim C3 (amended): for a missing or unreadable/malformed config
file, `load_config` returns — totally, every exception being caught —
the fixed default record: the four documented strings,
`update_interval = 15`, `small_image` and `small_text` bound to `null`,
and additionally `auto_start = true`. -/
theorem load_config_defaults (r : FileRead)
    (h : r = FileRead.missing ∨ r = FileRead.malformed) :
    Config.get (load_config r) ("state") = some (JValue.str ("Playing a game")) ∧
      Config.get (load_config r) ("details") =
        some (JValue.str ("Enjoying Discord")) ∧
      Config.get (load_config r) ("large_image") = some (JValue.str ("discord")) ∧
      Config.get (load_config r) ("large_text") =
        some (JValue.str ("Discord Rich Presence")) ∧
      Config.get (load_config r) ("small_image") = some JValue.null ∧
      Config.get (load_config r) ("small_text") = some JValue.null ∧
      Config.get (load_config r) ("update_interval") = some (JValue.num 15) ∧
      Config.get (load_config r) ("auto_start") = some (JValue.bool true) ∧
      load_config r = default_config := by
  rcases h with rfl | rfl <;> decide

/-- Concrete instance of the amended default-config claim: a malformed
file degrades to the full default record. -/
theorem load_config_defaults_witness :
    load_config FileRead.malformed = default_config :=
  (load_config_defaults FileRead.malformed (Or.inr rfl)).2.2.2.2.2.2.2.2

/-- Claim C4: `update_status` called while disconnected returns `False`,
leaves every manager attribute unchanged and makes no external call. -/
theorem update_status_disconnected (m : Manager) (a : Args) (now : Nat)
    (sendFails : Bool) (h : m.is_connected = false) :
    update_status m a now sendFails = UpdateResult.mk false m [] := by
  simp [update_status, h]

/-- Concrete instance: a disconnected manager refuses the update and
nothing happens. -/
theorem update_status_disconnected_witness :
    update_status (Manager.mk ("427") default_config true false) noArgs 0 false =
      UpdateResult.mk false (Manager.mk ("427") default_config true false) [] :=
  update_status_disconnected (Manager.mk ("427") default_config true false)
    noArgs 0 false rfl

/-- Claim C5 as stated is false: when `rpc.close()` raises, the
assignment `self.is_connected = False` is skipped, so after `disconnect`
returns the state is still Connected — even though the close call was
made and the error swallowed. -/
theorem disconnect_close_error_stays_connected :
    (disconnect (Manager.mk ("427") default_config true true) true).manager.is_connected =
        true ∧
      (disconnect (Manager.mk ("427") default_config true true) true).calls =
        [Call.rpcClose] := by
  decide

/-- Claim C5 (amended): `disconnect` on a connected manager with a live
handle makes exactly one close call and never propagates a close-time
error; when the close succeeds the state transitions to Disconnected
(nothing else changes), but when the close raises the state remains
Connected and all attributes are untouched. -/
theorem disconnect_behaviour (m : Manager) (closeFails : Bool)
    (hr : m.rpc = true) (hc : m.is_connected = true) :
    (disconnect m closeFails).calls = [Call.rpcClose] ∧
      (disconnect m false).manager = { m with is_connected := false } ∧
      (disconnect m true).manager = m := by
  cases closeFails <;> simp [disconnect, hr, hc]

/-- Concrete instance: a failing close is swallowed, one close call is
made. -/
theorem disconnect_behaviour_witness :
    (disconnect (Manager.mk ("427") default_config true true) true).calls =
      [Call.rpcClose] :=
  (disconnect_behaviour (Manager.mk ("427") default_config true true) true
    rfl rfl).1

/-- Claim C6 as stated is false: if the first close raises, the manager
is still Connected, so a second `disconnect` immediately after does make
an external close call. -/
theorem disconnect_twice_after_error :
    (disconnect (disconnect (Manager.mk ("427") default_config true true) true).manager
        true).calls = [Call.rpcClose] ∧
      (disconnect (disconnect (Manager.mk ("427") default_config true true) true).manager
        true).calls ≠ ([] : List Call) := by
  decide

/-- Claim C6 (amended): `disconnect` is a no-op — no error, no external
call, no state change — when already Disconnected; and whenever the
first close does not raise, a second `disconnect` immediately after
makes no external close call and changes nothing. -/
theorem disconnect_idempotent (m : Manager) (closeFails : Bool) :
    (m.is_connected = false → disconnect m closeFails = DisconnectResult.mk m []) ∧
      (disconnect (disconnect m false).manager closeFails).calls = [] ∧
      (disconnect (disconnect m false).manager closeFails).manager =
        (disconnect m false).manager := by
  refine ⟨fun h => by simp [disconnect, h], ?_, ?_⟩ <;>
    cases hr : m.rpc <;> cases hc : m.is_connected <;>
      simp [disconnect, hr, hc]

/-- Concrete instance: on an already-disconnected manager a (would-be
failing) close is never attempted. -/
theorem disconnect_idempotent_witness :
    disconnect (Manager.mk ("427") default_config true false) true =
      DisconnectResult.mk (Manager.mk ("427") default_config true false) [] :=
  (disconnect_idempotent (Manager.mk ("427") default_config true false) true).1 rfl

/-- Claim C7: when the initial connect fails, `run_continuous` returns
at once with the connect failure — the loop is never entered,
`update_status` is never called, and no disconnect happens. -/
theorem run_continuous_connect_fails (duration : Option Nat) (ticks : List Tick) :
    run_continuous duration false ticks =
      RunResult.mk false 0 0 ExitKind.connectFailed := by
  rfl

/-- Claim C8: after a successful connect, on every exit path of the loop
— duration elapsed, interrupt during a sleep, or an interrupt escaping
an update call — the `finally` block invokes `disconnect` exactly once. -/
theorem run_continuous_disconnect_once (duration : Option Nat) (ticks : List Tick)
    (h : (run_continuous duration true ticks).exit ≠ ExitKind.running) :
    (run_continuous duration true ticks).disconnectCalls = 1 := by
  cases hk : (loop duration ticks).2 <;>
    simp [run_continuous, hk] at h ⊢

/-- Concrete instance: an interrupt during the first sleep disconnects
exactly once. -/
theorem run_continuous_disconnect_once_witness :
    (run_continuous none true [Tick.mk 0 TickKind.sleepInterrupt]).disconnectCalls = 1 :=
  run_continuous_disconnect_once none [Tick.mk 0 TickKind.sleepInterrupt] (by decide)

/-- Claim C9 as stated is false: with a resolvable client ID and a
failing initial connect, `main` skips the `if manager.connect():` block
and falls off the end, so the process exits 0, not non-zero. -/
theorem main_exit_connect_failure_zero :
    mainExit (some ("9876543210")) FileRead.missing false false [] = 0 := by
  decide

/-- Claim C9 (amended): the exit code is 1 exactly when no truthy client
ID resolves, and 0 in every other case — on a graceful stop (interrupt
or end of run) and also when the initial connect fails. Resolution: a
non-empty environment variable always wins; with a falsy environment
value and a parseable config file the file's `client_id` field is used. -/
theorem main_exit_code (env : Option String) (file : FileRead)
    (connect1 connect2 : Bool) (ticks : List Tick) :
    (otruthy (resolveClientId env file) = false →
        mainExit env file connect1 connect2 ticks = 1) ∧
      (otruthy (resolveClientId env file) = true →
        mainExit env file connect1 connect2 ticks = 0) ∧
      (∀ s : String, env = some s → s ≠ "" →
        resolveClientId env file = some (JValue.str s)) ∧
      (otruthy (argVal env) = false → ∀ c : Config, file = FileRead.ok c →
        resolveClientId env file = Config.get c ("client_id")) := by
  refine ⟨?_, ?_, ?_, ?_⟩
  · intro h
    simp [mainExit, h]
  · intro h
    cases connect1 <;> simp [mainExit, h]
  · intro s hs hne
    subst hs
    simp [resolveClientId, argVal, otruthy, JValue.truthy, hne]
  · intro h c hc
    subst hc
    simp [resolveClientId, h]

/-- Concrete instance: with no client ID anywhere the process exits 1. -/
theorem main_exit_code_witness :
    mainExit none FileRead.missing true true [] = 1 :=
  (main_exit_code none FileRead.missing true true []).1 rfl

/-- Claim C10: `update_status` never mutates the manager — `client_id`,
`config`, `rpc` and `is_connected` are identical before and after the
call, on the refused path, on success and on transport failure alike; in
particular a failed send leaves the state Connected. -/
theorem update_status_frame (m : Manager) (a : Args) (now : Nat) (sendFails : Bool) :
    (update_status m a now sendFails).manager = m := by
  cases hc : (!m.is_connected || !m.rpc) <;> cases sendFails <;>
    simp [update_status, hc]
